import Mathlib

/-!
Verification of the dp-file-downloader table-download orchestration.

The development shallowly embeds the `table` package's `Download` function
(`table/table.go`) and the router's `handleDownload` wrapper
(`api/api.go`).  Backend collaborators (the zebedee content client, the
table-renderer client, and the header/cookie extraction helpers from
dp-net) are modelled as oracles carried by the `Downloader` and `Request`
values.  `Download` additionally returns a trace of observable events
(log lines and backend invocations) so that claims about which backends
are invoked can be stated.
-/

namespace FileDownloader

/-- A Go `error` value as seen by `Download`.  `errors.As` with target
`zebedee.ErrInvalidZebedeeResponse` succeeds exactly on the `zebedee`
constructor, which carries the upstream status code (`ActualCode`).
The `msg` component models the string returned by `Error()`. -/
inductive GoError where
  | zebedee (actualCode : Nat) (msg : String)
  | plain (msg : String)
deriving DecidableEq, Repr

/-- The string `Error()` would return for the error. -/
def errMsg : GoError → String
  | .zebedee _ m => m
  | .plain m => m

/-- The render response's body stream (`http.Response.Body`).
`content` is what `io.Copy` delivers to the writer; `copyErr`, when
present, is the error `io.Copy` returns after delivering `content`;
`closeErr`, when present, is the error returned by `Close()`. -/
structure BodyStream where
  content : String
  copyErr : Option GoError
  closeErr : Option GoError
deriving DecidableEq, Repr

/-- The renderer's `*http.Response`: status code, header and body.
The header models `http.Header` as an association list; `headerGet`
below models `Header.Get`. -/
structure HttpResponse where
  statusCode : Nat
  header : List (String × String)
  body : BodyStream
deriving DecidableEq, Repr

/-- Model of `http.Header.Get`: first value associated with the key, or `""`. -/
def headerGet (h : List (String × String)) (k : String) : String :=
  match h.find? (fun kv => kv.1 == k) with
  | some kv => kv.2
  | none => ""

/-- Lookup in a `map[string]string` value, `none` when the key is absent. -/
def mapGet (m : List (String × String)) (k : String) : Option String :=
  (m.find? (fun kv => kv.1 == k)).map (fun kv => kv.2)

/-- The inbound `*http.Request`, restricted to what `Download` reads:
the `format` and `uri` query parameters (`r.URL.Query().Get`), and the
results of the three dp-net extraction collaborators used by
`getHeaderValues`: `request.GetLocaleCode(r)` (which never fails),
`request.GetCollectionID(r)` and `dphandlers.GetFlorenceToken(ctx, r)`
(each yielding a value together with an optional error). -/
structure Request where
  queryFormat : String
  queryUri : String
  locale : String
  collectionIDRes : String × Option GoError
  accessTokenRes : String × Option GoError
deriving DecidableEq, Repr

/-- An observable event of a `Download` run: a logged error line, a call
to the content client (`GetResourceBody`, with the access token,
collection id, locale and uri arguments), or a call to the render
client (`PostBody`, with the format and payload arguments). -/
inductive Event where
  | logError (msg : String)
  | contentCall (accessToken collectionID lang uri : String)
  | renderCall (format payload : String)
deriving DecidableEq, Repr

/-- Holds (as `true`) exactly on backend invocations (content or render). -/
def isBackendCallEv : Event → Bool
  | .contentCall _ _ _ _ => true
  | .renderCall _ _ => true
  | .logError _ => false

/-- Holds (as `true`) exactly on render-client invocations. -/
def isRenderCallEv : Event → Bool
  | .renderCall _ _ => true
  | _ => false

/-- The zebedee content client's `GetResourceBody`, as an oracle:
arguments are `(userAccessToken, collectionID, lang, uri)` (the `ctx`
argument carries no data in this model); the result is the payload
bytes or an error. -/
def ZebedeeClient : Type := String → String → String → String → Except GoError String

/-- The table-renderer client's `PostBody`, as an oracle: arguments are
`(format, body)`; the result is an `*http.Response` or an error. -/
def RendererClient : Type := String → String → Except GoError HttpResponse

/-- Model of `table.Downloader`: the pair of backend clients. -/
structure Downloader where
  contentClient : ZebedeeClient
  rendererClient : RendererClient

/-- Model of `table.validateURL`: an error iff `format` or `uri` is empty. -/
def validateURL (format uri : String) : Option GoError :=
  if format = "" ∨ uri = "" then some (GoError.plain "bad request") else none

/-- The value part of `table.getHeaderValues`: the locale, collection id
and access token, each taken from the corresponding collaborator's
result regardless of whether that collaborator also reported an error. -/
def getHeaderValues (r : Request) : String × String × String :=
  (r.locale, r.collectionIDRes.1, r.accessTokenRes.1)

/-- The log lines emitted by `table.getHeaderValues`: one per failing
extraction collaborator. -/
def getHeaderValuesLog (r : Request) : List Event :=
  (match r.collectionIDRes.2 with
   | some _ => [Event.logError "unexpected error when getting collection id"]
   | none => []) ++
  (match r.accessTokenRes.2 with
   | some _ => [Event.logError "unexpected error when getting access token"]
   | none => [])

/-- Model of `table.getContentType`: a singleton map holding the response's
`Content-Type` header. -/
def getContentType (response : HttpResponse) : List (String × String) :=
  [("Content-Type", headerGet response.header "Content-Type")]

/-- Split a character list around every occurrence of `c`; never empty. -/
def splitChar (c : Char) : List Char → List (List Char)
  | [] => [[]]
  | x :: xs =>
    match splitChar c xs with
    | [] => [[]]
    | h :: t => if x = c then [] :: h :: t else (x :: h) :: t

/-- Model of `strings.Split` with the one-character separator `c`.  For the ASCII
separators used here this agrees with Go's byte-wise split. -/
def splitOnChar (s : String) (c : Char) : List String :=
  (splitChar c s.data).map (fun l => String.mk l)

/-- Model of `strings.TrimSuffix`: remove `suffix` from the end of `s` once, if
present. -/
def trimSuffix (s suffix : String) : String :=
  if suffix.data.isSuffixOf s.data then
    String.mk (s.data.take (s.data.length - suffix.data.length))
  else s

/-- Model of `table.createHeaders`: the `Content-Type` map extended with a
`Content-Disposition` built from the last `/`-separated segment of the
uri, with a trailing `.json` removed, and the format. -/
def createHeaders (response : HttpResponse) (uri format : String) : List (String × String) :=
  let headers := getContentType response
  let paths := splitOnChar uri '/'
  let filename := trimSuffix (paths.getLast?.getD "") ".json" ++ "." ++ format
  headers ++ [("Content-Disposition", "attachment; filename=\"" ++ filename ++ "\"")]

/-- The quadruple returned by `table.Downloader.Download`:
`(responseBody, headers, responseStatus, responseErr)`.  `none` models a
nil body / nil map / nil error. -/
structure DownloadResult where
  body : Option BodyStream
  headers : Option (List (String × String))
  status : Nat
  err : Option GoError
deriving DecidableEq, Repr

/-- Model of `table.Downloader.Download`, together with the trace of log lines
and backend invocations of the run.  Mirrors `table/table.go`: validate
the query parameters, fetch the content, map content-client errors
(`ErrInvalidZebedeeResponse` with code 404 to 404, code 500 to 500, any
other code to 400; any other error to 500), post to the renderer (error
to 500), and on success relay the renderer's body, status and headers. -/
def Download (d : Downloader) (r : Request) : DownloadResult × List Event :=
  let format := r.queryFormat
  let uri := r.queryUri
  let hv := getHeaderValues r
  let lang := hv.1
  let collectionID := hv.2.1
  let userAccessToken := hv.2.2
  let hdrEvents := getHeaderValuesLog r
  match validateURL format uri with
  | some e => (⟨none, none, 400, some e⟩, hdrEvents)
  | none =>
    let trace1 := hdrEvents ++ [Event.contentCall userAccessToken collectionID lang uri]
    match d.contentClient userAccessToken collectionID lang uri with
    | .error e =>
      let trace2 := trace1 ++ [Event.logError "error calling content server"]
      match e with
      | .zebedee actualCode m =>
        if actualCode = 404 then
          (⟨none, none, 404, some (GoError.zebedee actualCode m)⟩, trace2)
        else if actualCode = 500 then
          (⟨none, none, 500, some (GoError.zebedee actualCode m)⟩, trace2)
        else
          (⟨none, none, 400, some (GoError.zebedee actualCode m)⟩, trace2)
      | .plain m => (⟨none, none, 500, some (GoError.plain m)⟩, trace2)
    | .ok contentResponseBody =>
      let trace2 := trace1 ++ [Event.renderCall format contentResponseBody]
      match d.rendererClient format contentResponseBody with
      | .error e =>
        (⟨none, none, 500, some e⟩, trace2 ++ [Event.logError "error calling renderer server"])
      | .ok renderResponse =>
        (⟨some renderResponse.body, some (createHeaders renderResponse uri format),
          renderResponse.statusCode, none⟩, trace2)

/-- The `http.ResponseWriter` as the handler observes it: the header
map, whether `WriteHeader` has been called (after which further
`WriteHeader` calls are superfluous no-ops), the status that was
written, and the bytes written to the body. -/
structure ResponseWriter where
  headerMap : List (String × String)
  wroteHeader : Bool
  status : Nat
  bodyBytes : String
deriving DecidableEq, Repr

/-- The writer handed to the handler: nothing written yet. -/
def ResponseWriter.init : ResponseWriter := ⟨[], false, 0, ""⟩

/-- Model of `w.WriteHeader(code)`: records the status; a second call is a
superfluous no-op. -/
def writeHeader (w : ResponseWriter) (code : Nat) : ResponseWriter :=
  if w.wroteHeader then w else { w with wroteHeader := true, status := code }

/-- Model of `w.Write(s)`: an implicit `WriteHeader(200)` if none happened yet,
then the bytes are appended to the body. -/
def write (w : ResponseWriter) (s : String) : ResponseWriter :=
  let w1 := writeHeader w 200
  { w1 with bodyBytes := w1.bodyBytes ++ s }

/-- Model of `w.Header().Add(k, v)`: appends to the header map. -/
def headerAdd (w : ResponseWriter) (k v : String) : ResponseWriter :=
  { w with headerMap := w.headerMap ++ [(k, v)] }

/-- Model of `w.Header().Set(k, v)`: replaces any value for `k`. -/
def headerSet (w : ResponseWriter) (k v : String) : ResponseWriter :=
  { w with headerMap := w.headerMap.filter (fun kv => kv.1 != k) ++ [(k, v)] }

/-- Model of `http.Error(w, msg, code)`: sets the plain-text content type and
nosniff headers, writes the status (a no-op if the header was already
written) and writes the message followed by a newline. -/
def httpError (w : ResponseWriter) (msg : String) (code : Nat) : ResponseWriter :=
  let w1 := headerSet w "Content-Type" "text/plain; charset=utf-8"
  let w2 := headerSet w1 "X-Content-Type-Options" "nosniff"
  let w3 := writeHeader w2 code
  write w3 (msg ++ "\n")

/-- The body of `api.handleDownload` before its deferred close runs:
the writer state, the log lines emitted, and whether the body panicked
(`io.Copy` invoked on a nil reader dereferences a nil interface). -/
def handlerMain (res : DownloadResult) : ResponseWriter × List String × Bool :=
  let w0 := ResponseWriter.init
  match res.err with
  | some e =>
    let status := if res.status < 400 then 500 else res.status
    (httpError w0 (errMsg e) status, ["handleDownload: Error returned from handler"], false)
  | none =>
    let w1 := (res.headers.getD []).foldl (fun w kv => headerAdd w kv.1 kv.2) w0
    let w2 := writeHeader w1 res.status
    match res.body with
    | none => (w2, [], true)
    | some b =>
      let w3 := write w2 b.content
      match b.copyErr with
      | some ce =>
        (httpError w3 (errMsg ce) 500, ["handleDownload: Error while copying from reader"], false)
      | none => (w3, [], false)

/-- The outcome of one `handleDownload` run: the final writer, how many
times `Close` was invoked on an actual reader, whether the run panicked
(in its body or in the deferred function), and the log lines. -/
structure HandlerRun where
  w : ResponseWriter
  closes : Nat
  panicked : Bool
  logs : List String
deriving DecidableEq, Repr

/-- Model of `api.handleDownload` applied to a `Download` result: runs the
handler body, then the deferred `reader.Close()`.  When the result's
body is an actual reader the deferred function closes it once (logging
any close error); when the body is nil the deferred call dereferences a
nil interface and panics, so no close happens and the handler does not
return normally. -/
def handleDownload (res : DownloadResult) : HandlerRun :=
  let m := handlerMain res
  match res.body with
  | some b =>
    let logs := match b.closeErr with
      | some _ => m.2.1 ++ ["unable to close reader cleanly"]
      | none => m.2.1
    ⟨m.1, 1, m.2.2, logs⟩
  | none => ⟨m.1, 0, true, m.2.1⟩

/-- The full request path for one download request: `Download` followed
by `handleDownload` on its result. -/
def serveDownload (d : Downloader) (r : Request) : HandlerRun :=
  handleDownload (Download d r).1

/-! Concrete fixtures used by witnesses and counterexamples. -/

/-- A renderer body that streams without error. -/
def okBody : BodyStream := ⟨"renderServerResponse", none, none⟩

/-- A 200 renderer response with content type `text/html`. -/
def okResponse : HttpResponse := ⟨200, [("Content-Type", "text/html")], okBody⟩

/-- A downloader whose two backends both succeed. -/
def okDownloader : Downloader :=
  ⟨fun _ _ _ _ => .ok "contentServerResponse", fun _ _ => .ok okResponse⟩

/-- The request `format=html&uri=/foo/bar.json` with no extraction
failures. -/
def okRequest : Request := ⟨"html", "/foo/bar.json", "en", ("", none), ("", none)⟩

/-- C1: for every request with non-empty format and uri where the content
client returns a payload without error and the render client returns a
response without error, `Download` returns the renderer's status code
unchanged, a headers map whose `Content-Type` entry equals the renderer
response's `Content-Type` header, the renderer's body stream unmodified,
and a nil error. -/
theorem download_success_relays_renderer
    (d : Downloader) (r : Request) (payload : String) (resp : HttpResponse)
    (hf : r.queryFormat ≠ "") (hu : r.queryUri ≠ "")
    (hc : d.contentClient r.accessTokenRes.1 r.collectionIDRes.1 r.locale r.queryUri =
      .ok payload)
    (hr : d.rendererClient r.queryFormat payload = .ok resp) :
    (Download d r).1.status = resp.statusCode ∧
    (∃ hm, (Download d r).1.headers = some hm ∧
      mapGet hm "Content-Type" = some (headerGet resp.header "Content-Type")) ∧
    (Download d r).1.body = some resp.body ∧
    (Download d r).1.err = none := by
  have hval : validateURL r.queryFormat r.queryUri = none := by
    simp [validateURL, hf, hu]
  simp only [Download, getHeaderValues, hval, hc, hr]
  simp [createHeaders, mapGet, getContentType, headerGet]

/-- Witness for C1 at the concrete success fixture. -/
theorem download_success_relays_renderer_witness :
    (Download okDownloader okRequest).1.status = 200 ∧
    (∃ hm, (Download okDownloader okRequest).1.headers = some hm ∧
      mapGet hm "Content-Type" = some "text/html") ∧
    (Download okDownloader okRequest).1.body = some okBody ∧
    (Download okDownloader okRequest).1.err = none := by
  have h := download_success_relays_renderer okDownloader okRequest
    "contentServerResponse" okResponse (by decide) (by decide) rfl rfl
  simpa [okResponse, okBody, headerGet] using h

/-- The log lines of `getHeaderValues` contain no backend calls. -/
theorem getHeaderValuesLog_no_backend (r : Request) :
    (getHeaderValuesLog r).filter isBackendCallEv = [] := by
  unfold getHeaderValuesLog
  cases r.collectionIDRes.2 <;> cases r.accessTokenRes.2 <;> simp [isBackendCallEv]

/-- The log lines of `getHeaderValues` contain no render calls. -/
theorem getHeaderValuesLog_no_render (r : Request) :
    (getHeaderValuesLog r).filter isRenderCallEv = [] := by
  unfold getHeaderValuesLog
  cases r.collectionIDRes.2 <;> cases r.accessTokenRes.2 <;> simp [isRenderCallEv]

/-- C2: for every request in which the format or the uri query parameter
(or both) is empty, `Download` returns status 400 with a non-nil error, a
nil body and nil headers, and invokes neither the content client nor the
render client. -/
theorem download_missing_params_rejected
    (d : Downloader) (r : Request)
    (h : r.queryFormat = "" ∨ r.queryUri = "") :
    (Download d r).1 = ⟨none, none, 400, some (GoError.plain "bad request")⟩ ∧
    (Download d r).2.filter isBackendCallEv = [] := by
  have hval : validateURL r.queryFormat r.queryUri = some (GoError.plain "bad request") := by
    rcases h with h | h <;> simp [validateURL, h]
  simp only [Download, hval]
  exact ⟨trivial, getHeaderValuesLog_no_backend r⟩

/-- The request with both `format` and `uri` empty. -/
def emptyRequest : Request := ⟨"", "", "en", ("", none), ("", none)⟩

/-- Witness for C2 at the request with both parameters empty. -/
theorem download_missing_params_rejected_witness :
    (Download okDownloader emptyRequest).1 =
      ⟨none, none, 400, some (GoError.plain "bad request")⟩ ∧
    (Download okDownloader emptyRequest).2.filter isBackendCallEv = [] :=
  download_missing_params_rejected okDownloader emptyRequest (Or.inl rfl)

/-- C3: for every content-client failure carrying an upstream status code
(`ErrInvalidZebedeeResponse`), `Download` returns 404 for upstream 404,
500 for upstream 500 and 400 for every other code, with the underlying
error returned non-nil, nil body and headers, and the render client never
invoked. -/
theorem download_zebedee_error_mapped
    (d : Downloader) (r : Request) (code : Nat) (m : String)
    (hf : r.queryFormat ≠ "") (hu : r.queryUri ≠ "")
    (hc : d.contentClient r.accessTokenRes.1 r.collectionIDRes.1 r.locale r.queryUri =
      .error (GoError.zebedee code m)) :
    (Download d r).1 =
      ⟨none, none, if code = 404 then 404 else if code = 500 then 500 else 400,
        some (GoError.zebedee code m)⟩ ∧
    (Download d r).2.filter isRenderCallEv = [] := by
  have hval : validateURL r.queryFormat r.queryUri = none := by
    simp [validateURL, hf, hu]
  simp only [Download, getHeaderValues, hval, hc]
  by_cases h4 : code = 404 <;> by_cases h5 : code = 500 <;>
    simp [h4, h5, List.filter_append, getHeaderValuesLog_no_render, isRenderCallEv]

/-- A downloader whose content client reports an upstream 404. -/
def notFoundDownloader : Downloader :=
  ⟨fun _ _ _ _ => .error (GoError.zebedee 404 "resource not found"),
   fun _ _ => .ok okResponse⟩

/-- Witness for C3 at an upstream-404 content failure. -/
theorem download_zebedee_error_mapped_witness :
    (Download notFoundDownloader okRequest).1 =
      ⟨none, none, 404, some (GoError.zebedee 404 "resource not found")⟩ ∧
    (Download notFoundDownloader okRequest).2.filter isRenderCallEv = [] := by
  have h := download_zebedee_error_mapped notFoundDownloader okRequest 404
    "resource not found" (by decide) (by decide) rfl
  simpa using h

/-- C4: for every successful download with uri `u` and format `f`, the
returned `Content-Disposition` entry is
`attachment; filename="<b>.<f>"` where `<b>` is the last `/`-separated
segment of `u` with one trailing `.json` suffix removed if present. -/
theorem download_content_disposition
    (d : Downloader) (r : Request) (payload : String) (resp : HttpResponse)
    (hf : r.queryFormat ≠ "") (hu : r.queryUri ≠ "")
    (hc : d.contentClient r.accessTokenRes.1 r.collectionIDRes.1 r.locale r.queryUri =
      .ok payload)
    (hr : d.rendererClient r.queryFormat payload = .ok resp) :
    ∃ hm, (Download d r).1.headers = some hm ∧
      mapGet hm "Content-Disposition" =
        some ("attachment; filename=\"" ++
          trimSuffix ((splitOnChar r.queryUri '/').getLast?.getD "") ".json" ++
          "." ++ r.queryFormat ++ "\"") := by
  have hval : validateURL r.queryFormat r.queryUri = none := by
    simp [validateURL, hf, hu]
  simp only [Download, getHeaderValues, hval, hc, hr]
  simp [createHeaders, mapGet, getContentType, String.append_assoc]

/-- Witness for C4: uri `/foo/bar.json` with format `html` yields
`attachment; filename="bar.html"`. -/
theorem download_content_disposition_witness :
    ∃ hm, (Download okDownloader okRequest).1.headers = some hm ∧
      mapGet hm "Content-Disposition" = some "attachment; filename=\"bar.html\"" := by
  obtain ⟨hm, h1, h2⟩ := download_content_disposition okDownloader okRequest
    "contentServerResponse" okResponse (by decide) (by decide) rfl rfl
  exact ⟨hm, h1, h2.trans (by decide)⟩

/-- C5: for every request where the content fetch succeeds but the render
client returns a non-nil error, `Download` returns status 500 with that
error surfaced and a nil body and nil headers. -/
theorem download_render_error_internal
    (d : Downloader) (r : Request) (payload : String) (e : GoError)
    (hf : r.queryFormat ≠ "") (hu : r.queryUri ≠ "")
    (hc : d.contentClient r.accessTokenRes.1 r.collectionIDRes.1 r.locale r.queryUri =
      .ok payload)
    (hr : d.rendererClient r.queryFormat payload = .error e) :
    (Download d r).1 = ⟨none, none, 500, some e⟩ := by
  have hval : validateURL r.queryFormat r.queryUri = none := by
    simp [validateURL, hf, hu]
  simp only [Download, getHeaderValues, hval, hc, hr]

/-- A downloader whose content client succeeds but whose render client
fails with a transport error. -/
def renderFailDownloader : Downloader :=
  ⟨fun _ _ _ _ => .ok "contentServerResponse",
   fun _ _ => .error (GoError.plain "render server down")⟩

/-- Witness for C5 at a failing render client. -/
theorem download_render_error_internal_witness :
    (Download renderFailDownloader okRequest).1 =
      ⟨none, none, 500, some (GoError.plain "render server down")⟩ :=
  download_render_error_internal renderFailDownloader okRequest "contentServerResponse"
    (GoError.plain "render server down") (by decide) (by decide) rfl rfl

/-- C9: for every content-client error that is not an
`ErrInvalidZebedeeResponse`, `Download` returns status 500 with that
error surfaced, nil body and headers, and never invokes the render
client. -/
theorem download_unclassified_error_internal
    (d : Downloader) (r : Request) (m : String)
    (hf : r.queryFormat ≠ "") (hu : r.queryUri ≠ "")
    (hc : d.contentClient r.accessTokenRes.1 r.collectionIDRes.1 r.locale r.queryUri =
      .error (GoError.plain m)) :
    (Download d r).1 = ⟨none, none, 500, some (GoError.plain m)⟩ ∧
    (Download d r).2.filter isRenderCallEv = [] := by
  have hval : validateURL r.queryFormat r.queryUri = none := by
    simp [validateURL, hf, hu]
  simp only [Download, getHeaderValues, hval, hc]
  exact ⟨trivial, by
    simp [List.filter_append, getHeaderValuesLog_no_render, isRenderCallEv]⟩

/-- A downloader whose content client fails without an upstream status
code (a plain transport error, not `ErrInvalidZebedeeResponse`). -/
def contentDownDownloader : Downloader :=
  ⟨fun _ _ _ _ => .error (GoError.plain "content server down"),
   fun _ _ => .ok okResponse⟩

/-- Witness for C9 at a plain content-transport failure. -/
theorem download_unclassified_error_internal_witness :
    (Download contentDownDownloader okRequest).1 =
      ⟨none, none, 500, some (GoError.plain "content server down")⟩ ∧
    (Download contentDownDownloader okRequest).2.filter isRenderCallEv = [] :=
  download_unclassified_error_internal contentDownDownloader okRequest
    "content server down" (by decide) (by decide) rfl

/-- Once validation passes, the trace starts with the extraction log
lines followed by the content-client invocation. -/
theorem download_trace_shape
    (d : Downloader) (r : Request)
    (hval : validateURL r.queryFormat r.queryUri = none) :
    ∃ tail, (Download d r).2 =
      getHeaderValuesLog r ++
        (Event.contentCall r.accessTokenRes.1 r.collectionIDRes.1 r.locale r.queryUri ::
          tail) := by
  simp only [Download, getHeaderValues, hval]
  cases hcc : d.contentClient r.accessTokenRes.1 r.collectionIDRes.1 r.locale r.queryUri with
  | error e =>
    cases e with
    | zebedee code m =>
      by_cases h4 : code = 404 <;> by_cases h5 : code = 500 <;>
        exact ⟨[Event.logError "error calling content server"], by simp [h4, h5]⟩
    | plain m =>
      exact ⟨[Event.logError "error calling content server"], by simp⟩
  | ok payload =>
    cases hrr : d.rendererClient r.queryFormat payload with
    | error e =>
      exact ⟨[Event.renderCall r.queryFormat payload,
        Event.logError "error calling renderer server"], by simp [hrr]⟩
    | ok resp =>
      exact ⟨[Event.renderCall r.queryFormat payload], by simp [hrr]⟩

/-- C10: for every request with non-empty format and uri, a failure of
the collection-id extraction, of the access-token extraction, or of
both, never fails the download: `Download` logs each extraction error,
passes the empty string to the content client in place of each missing
value (and the extracted value for each successful extraction), and
otherwise returns exactly what it returns when the extractions succeed
with the same values.  The hypotheses `hcol` and `htok` record the
external dp-net collaborators' contract that a failing extraction
yields the empty string alongside its error; each applies only to the
failing side, so one extraction may succeed with any non-empty value
while the other fails. -/
theorem download_extraction_failure_harmless
    (d : Downloader) (r : Request)
    (hf : r.queryFormat ≠ "") (hu : r.queryUri ≠ "")
    (hcol : r.collectionIDRes.2.isSome = true → r.collectionIDRes.1 = "")
    (htok : r.accessTokenRes.2.isSome = true → r.accessTokenRes.1 = "") :
    (Download d r).1 =
      (Download d
        { r with collectionIDRes := (r.collectionIDRes.1, none),
                 accessTokenRes := (r.accessTokenRes.1, none) }).1 ∧
    Event.contentCall
      (if r.accessTokenRes.2.isSome = true then "" else r.accessTokenRes.1)
      (if r.collectionIDRes.2.isSome = true then "" else r.collectionIDRes.1)
      r.locale r.queryUri ∈ (Download d r).2 ∧
    (r.collectionIDRes.2.isSome = true →
      Event.logError "unexpected error when getting collection id" ∈ (Download d r).2) ∧
    (r.accessTokenRes.2.isSome = true →
      Event.logError "unexpected error when getting access token" ∈ (Download d r).2) := by
  have hval : validateURL r.queryFormat r.queryUri = none := by
    simp [validateURL, hf, hu]
  obtain ⟨tail, ht⟩ := download_trace_shape d r hval
  have hcv : (if r.collectionIDRes.2.isSome = true then "" else r.collectionIDRes.1) =
      r.collectionIDRes.1 := by
    by_cases h : r.collectionIDRes.2.isSome = true
    · simp [h, hcol h]
    · simp [h]
  have htv : (if r.accessTokenRes.2.isSome = true then "" else r.accessTokenRes.1) =
      r.accessTokenRes.1 := by
    by_cases h : r.accessTokenRes.2.isSome = true
    · simp [h, htok h]
    · simp [h]
  refine ⟨?_, ?_, ?_, ?_⟩
  · simp only [Download, getHeaderValues, hval]
    cases hcc : d.contentClient r.accessTokenRes.1 r.collectionIDRes.1 r.locale r.queryUri with
    | error e =>
      cases e with
      | zebedee code m =>
        by_cases h4 : code = 404 <;> by_cases h5 : code = 500 <;> simp [h4, h5]
      | plain m => simp
    | ok payload =>
      cases hrr : d.rendererClient r.queryFormat payload with
      | error e => simp [hrr]
      | ok resp => simp [hrr]
  · rw [hcv, htv, ht]
    simp
  · intro h1
    rw [ht]
    refine List.mem_append.mpr (Or.inl ?_)
    unfold getHeaderValuesLog
    cases hx : r.collectionIDRes.2 with
    | none => rw [hx] at h1; simp at h1
    | some x => simp [hx]
  · intro h2
    rw [ht]
    refine List.mem_append.mpr (Or.inl ?_)
    unfold getHeaderValuesLog
    cases hx : r.accessTokenRes.2 with
    | none => rw [hx] at h2; simp at h2
    | some x =>
      refine List.mem_append.mpr (Or.inr ?_)
      simp [hx]

/-- The request `format=html&uri=/foo/bar.json` whose collection-id
extraction fails (yielding the empty string, as the dp-net collaborator
does on failure) while the access-token extraction succeeds with a
non-empty token. -/
def extractFailRequest : Request :=
  ⟨"html", "/foo/bar.json", "en",
   ("", some (GoError.plain "no collection cookie")),
   ("myAccessToken", none)⟩

/-- Witness for C10 at a request whose collection-id extraction fails
while the access-token extraction succeeds with a non-empty value. -/
theorem download_extraction_failure_harmless_witness :
    (Download okDownloader extractFailRequest).1 =
      (Download okDownloader
        { extractFailRequest with
            collectionIDRes := (extractFailRequest.collectionIDRes.1, none),
            accessTokenRes := (extractFailRequest.accessTokenRes.1, none) }).1 ∧
    Event.contentCall
      (if extractFailRequest.accessTokenRes.2.isSome = true then ""
        else extractFailRequest.accessTokenRes.1)
      (if extractFailRequest.collectionIDRes.2.isSome = true then ""
        else extractFailRequest.collectionIDRes.1)
      extractFailRequest.locale extractFailRequest.queryUri ∈
      (Download okDownloader extractFailRequest).2 ∧
    (extractFailRequest.collectionIDRes.2.isSome = true →
      Event.logError "unexpected error when getting collection id" ∈
        (Download okDownloader extractFailRequest).2) ∧
    (extractFailRequest.accessTokenRes.2.isSome = true →
      Event.logError "unexpected error when getting access token" ∈
        (Download okDownloader extractFailRequest).2) :=
  download_extraction_failure_harmless okDownloader extractFailRequest
    (by decide) (by decide) (by decide) (by decide)

/-- C6 counterexample: at a concrete upstream-404 failure the handler
writes status 404 but a non-empty body holding the error detail, refuting
the claim that the body is empty with no error detail. -/
theorem serve_notfound_counterexample :
    (serveDownload notFoundDownloader okRequest).w.status = 404 ∧
    (serveDownload notFoundDownloader okRequest).w.bodyBytes = "resource not found\n" ∧
    (serveDownload notFoundDownloader okRequest).w.bodyBytes ≠ "" := by decide

/-- C6 (amended): for every upstream-404 content failure the HTTP
response written to the caller has status 404 and the error's message
followed by a newline as its body: `http.Error` includes the error
detail, so the body is not empty. -/
theorem serve_notfound_writes_error_detail
    (d : Downloader) (r : Request) (m : String)
    (hf : r.queryFormat ≠ "") (hu : r.queryUri ≠ "")
    (hc : d.contentClient r.accessTokenRes.1 r.collectionIDRes.1 r.locale r.queryUri =
      .error (GoError.zebedee 404 m)) :
    (serveDownload d r).w.status = 404 ∧
    (serveDownload d r).w.bodyBytes = m ++ "\n" := by
  have hval : validateURL r.queryFormat r.queryUri = none := by
    simp [validateURL, hf, hu]
  simp only [serveDownload, Download, getHeaderValues, hval, hc]
  simp [handleDownload, handlerMain, httpError, headerSet, writeHeader, write, errMsg,
    ResponseWriter.init, String.empty_append]

/-- Witness for the amended C6 at a concrete upstream-404 failure. -/
theorem serve_notfound_writes_error_detail_witness :
    (serveDownload notFoundDownloader okRequest).w.status = 404 ∧
    (serveDownload notFoundDownloader okRequest).w.bodyBytes = "resource not found" ++ "\n" :=
  serve_notfound_writes_error_detail notFoundDownloader okRequest "resource not found"
    (by decide) (by decide) rfl

/-- C7: at the failing input (a request rejected by validation, so
`Download` returns a nil body together with an error) the handler's
deferred `reader.Close()` dereferences a nil interface: no close happens
and the handler panics instead of returning normally, contradicting the
intended guarantee that the body reader is closed exactly once on every
exit path. -/
theorem serve_nil_body_close_panics :
    (Download okDownloader emptyRequest).1.body = none ∧
    (Download okDownloader emptyRequest).1.err ≠ none ∧
    (serveDownload okDownloader emptyRequest).closes = 0 ∧
    (serveDownload okDownloader emptyRequest).panicked = true := by decide

/-- A renderer response whose body fails partway through `io.Copy`. -/
def copyFailBody : BodyStream :=
  ⟨"renderServerResponse", some (GoError.plain "connection reset"), none⟩

/-- A 200 renderer response whose body copy fails mid-stream. -/
def copyFailResponse : HttpResponse :=
  ⟨200, [("Content-Type", "text/html")], copyFailBody⟩

/-- A downloader whose backends succeed but whose rendered body fails
while being copied to the response. -/
def copyFailDownloader : Downloader :=
  ⟨fun _ _ _ _ => .ok "contentServerResponse", fun _ _ => .ok copyFailResponse⟩

/-- C8 counterexample: at a concrete mid-copy failure the handler writes
the copy error's message after the streamed content, refuting the claim
that nothing further is written to the caller after the copy fails. -/
theorem serve_copy_failure_counterexample :
    (serveDownload copyFailDownloader okRequest).w.bodyBytes =
      "renderServerResponse" ++ "connection reset\n" ∧
    "renderServerResponse" ++ "connection reset\n" ≠ "renderServerResponse" := by decide

/-- C8 (amended): for every successful download whose body copy fails
mid-stream, the handler logs the failure and additionally calls
`http.Error`, appending the copy error's message and a newline to the
already-streamed response body; the extra `WriteHeader(500)` is a
superfluous no-op, so the status stays the renderer's. -/
theorem serve_copy_failure_appends_error
    (d : Downloader) (r : Request) (payload : String) (resp : HttpResponse) (ce : GoError)
    (hf : r.queryFormat ≠ "") (hu : r.queryUri ≠ "")
    (hc : d.contentClient r.accessTokenRes.1 r.collectionIDRes.1 r.locale r.queryUri =
      .ok payload)
    (hr : d.rendererClient r.queryFormat payload = .ok resp)
    (hcopy : resp.body.copyErr = some ce) :
    (serveDownload d r).w.bodyBytes = resp.body.content ++ (errMsg ce ++ "\n") ∧
    (serveDownload d r).w.status = resp.statusCode ∧
    "handleDownload: Error while copying from reader" ∈ (serveDownload d r).logs := by
  have hval : validateURL r.queryFormat r.queryUri = none := by
    simp [validateURL, hf, hu]
  simp only [serveDownload, Download, getHeaderValues, hval, hc, hr]
  cases hcl : resp.body.closeErr <;>
    simp [handleDownload, handlerMain, hcopy, hcl, httpError, headerSet, writeHeader, write,
      headerAdd, errMsg, ResponseWriter.init, String.empty_append, createHeaders,
      getContentType]

/-- Witness for the amended C8 at a concrete mid-copy failure. -/
theorem serve_copy_failure_appends_error_witness :
    (serveDownload copyFailDownloader okRequest).w.bodyBytes =
      copyFailResponse.body.content ++ (errMsg (GoError.plain "connection reset") ++ "\n") ∧
    (serveDownload copyFailDownloader okRequest).w.status = copyFailResponse.statusCode ∧
    "handleDownload: Error while copying from reader" ∈
      (serveDownload copyFailDownloader okRequest).logs :=
  serve_copy_failure_appends_error copyFailDownloader okRequest "contentServerResponse"
    copyFailResponse (GoError.plain "connection reset") (by decide) (by decide) rfl rfl rfl

end FileDownloader
